import Mathlib

/-!
Verification of the Julian Day conversion layer of `af-sweph`
(src/packages/react-native/cpp/RNSwephImpl.{h,cpp}).

The C++ source declares the class `RNSwephImpl` with no data members and a
single method `swe_julday(double year, double month, double day, double hour,
double gregflag)` whose entire body is `return 0.0;` (a scaffold mock).

Doubles are modelled as either a finite value (a rational) or one of the
non-finite IEEE-754 values (NaN, +inf, -inf).  The finite values appearing
below (0.0, 12, 18, 2451545.0, 2451545.25, ...) are all exactly representable
in double precision, so the rational model is exact for them.
-/

namespace Sweph

/-- A double-precision value: finite (modelled exactly as a rational) or one
of the non-finite IEEE-754 values. -/
inductive FloatVal where
  | finite (q : ℚ)
  | nan
  | posInf
  | negInf
deriving DecidableEq, Repr

/-- Whether a double value is finite (not NaN and not an infinity). -/
def FloatVal.isFinite : FloatVal → Bool
  | FloatVal.finite _ => true
  | _ => false

/-- The `RNSwephImpl` class of `RNSwephImpl.h`: it declares no data members,
so an object of the class carries no state. -/
structure RNSwephImpl : Type where

/-- Embedding of `RNSwephImpl::swe_julday` from `RNSwephImpl.cpp`, lines
11-15.  The body of the C++ method is exactly `return 0.0;` — it reads none
of its five arguments and touches no state.  The embedding returns the
result together with the (unchanged) receiver object, so that statements
about side effects on the object can be made. -/
def RNSwephImpl.swe_julday (self : RNSwephImpl)
    (year month day hour gregflag : FloatVal) : FloatVal × RNSwephImpl :=
  (FloatVal.finite 0, self)

/-- The calendar-system selector of the spec: `{JULIAN, GREGORIAN}`. -/
inductive CalendarSystem where
  | julian
  | gregorian
deriving DecidableEq, Repr

/-- The integer flag value the code's `gregflag` argument receives for each
calendar system (0 for Julian, 1 for Gregorian, the Swiss Ephemeris
convention referenced by the source comments). -/
def CalendarSystem.gregflag : CalendarSystem → FloatVal
  | CalendarSystem.julian => FloatVal.finite 0
  | CalendarSystem.gregorian => FloatVal.finite 1

/-- The spec's `CalendarDate` value type: year (any integer, astronomical
numbering), month, day, and fractional hour. -/
structure CalendarDate where
  year : ℤ
  month : ℤ
  day : ℤ
  hour : ℚ
deriving DecidableEq, Repr

/-- Leap-year rule of each calendar system (spec §3/§4.1): Julian — every
fourth year; Gregorian — every fourth year except centuries not divisible
by 400. -/
def CalendarSystem.isLeapYear : CalendarSystem → ℤ → Bool
  | CalendarSystem.julian, y => y % 4 == 0
  | CalendarSystem.gregorian, y => (y % 4 == 0 && y % 100 != 0) || y % 400 == 0

/-- Number of days in a month for a given year under a calendar system. -/
def daysInMonth (sys : CalendarSystem) (y m : ℤ) : ℤ :=
  if m = 2 then (if sys.isLeapYear y then 29 else 28)
  else if m = 4 ∨ m = 6 ∨ m = 9 ∨ m = 11 then 30
  else 31

/-- Validity of a calendar date (spec §4.1 input constraints): month in
[1,12], day valid for that month/year under the system's leap-year rule,
hour in [0,24). -/
def CalendarDate.isValid (sys : CalendarSystem) (d : CalendarDate) : Bool :=
  1 ≤ d.month && d.month ≤ 12 && 1 ≤ d.day && d.day ≤ daysInMonth sys d.year d.month
    && 0 ≤ d.hour && d.hour < 24

/-- Calendar date order: lexicographic on (year, month, day, hour). -/
def CalendarDate.before (d1 d2 : CalendarDate) : Bool :=
  d1.year < d2.year ||
  (d1.year == d2.year && (d1.month < d2.month ||
  (d1.month == d2.month && (d1.day < d2.day ||
  (d1.day == d2.day && decide (d1.hour < d2.hour))))))

/-- `toJulianDay(date, system)` as the repository implements it: the host
layer marshals the calendar fields into doubles and calls
`RNSwephImpl::swe_julday` on a fresh object, returning the double result. -/
def toJulianDay (d : CalendarDate) (sys : CalendarSystem) : FloatVal :=
  (RNSwephImpl.mk.swe_julday (FloatVal.finite (d.year : ℚ))
    (FloatVal.finite (d.month : ℚ)) (FloatVal.finite (d.day : ℚ))
    (FloatVal.finite d.hour) sys.gregflag).1

/-- The spec's `DomainError`: the single error of the inverse conversion,
raised for non-finite numeric input. -/
inductive DomainError where
  | nonFinite
deriving DecidableEq, Repr

/-- Modelled from the spec: the inverse mapping applied to a finite Julian
Day value.  No implementation of `fromJulianDay` exists under src/ (the
repository is a scaffold), so this follows spec §4.1: the standard
astronomical inverse algorithm — extract the integer day count and the
fractional day, convert the fractional day back to an hour, and apply the
century-correction inverse when the system is Gregorian. -/
def revjul (jd : ℚ) (sys : CalendarSystem) : CalendarDate :=
  let u0 : ℚ := jd + 32082.5
  let u0g : ℚ :=
    match sys with
    | CalendarSystem.gregorian =>
        let u1 : ℚ := u0 + (⌊u0 / 36525⌋ : ℚ) - (⌊u0 / 146100⌋ : ℚ) - 38
        let u1a : ℚ := if 1830691.5 ≤ jd then u1 + 1 else u1
        u0 + (⌊u1a / 36525⌋ : ℚ) - (⌊u1a / 146100⌋ : ℚ) - 38
    | CalendarSystem.julian => u0
  let u2 : ℤ := ⌊u0g + 123⌋
  let u3 : ℤ := ⌊((u2 : ℚ) - 122.2) / 365.25⌋
  let u4 : ℤ := ⌊((u2 : ℚ) - (⌊(365.25 : ℚ) * (u3 : ℚ)⌋ : ℚ)) / 30.6001⌋
  let mon : ℤ := if 12 < u4 - 1 then u4 - 13 else u4 - 1
  let day : ℤ := u2 - ⌊(365.25 : ℚ) * (u3 : ℚ)⌋ - ⌊(30.6001 : ℚ) * (u4 : ℚ)⌋
  let yr : ℤ := u3 + ⌊((u4 : ℚ) - 2) / 12⌋ - 4800
  let hr : ℚ := (jd - (⌊jd + 0.5⌋ : ℚ) + 0.5) * 24
  { year := yr, month := mon, day := day, hour := hr }

/-- Modelled from the spec: `fromJulianDay(jd, system)` is specified in spec
§4.1 but absent from src/.  Per the spec it fails with `DomainError` only
for non-finite (NaN/infinite) input, and otherwise returns the calendar
date produced by the inverse polynomial mapping. -/
def fromJulianDay (jd : FloatVal) (sys : CalendarSystem) :
    Except DomainError CalendarDate :=
  match jd with
  | FloatVal.finite q => Except.ok (revjul q sys)
  | _ => Except.error DomainError.nonFinite

/-- C1: the claim says `toJulianDay({2000,1,1,12}, GREGORIAN)` returns
exactly 2451545.0.  The code (the mock `swe_julday`, whose body is
`return 0.0;`) returns 0.0 at that input, which differs from the specified
J2000.0 value. -/
theorem C1_code_returns_zero_at_j2000 :
    toJulianDay ⟨2000, 1, 1, 12⟩ CalendarSystem.gregorian = FloatVal.finite 0 ∧
    FloatVal.finite 0 ≠ FloatVal.finite 2451545 := by
  exact ⟨rfl, by decide⟩

/-- C2: the claim says `toJulianDay({2000,1,1,18}, GREGORIAN)` returns
exactly 2451545.25.  The code returns 0.0 at that input: the fractional
hour does not reach the result at all. -/
theorem C2_code_returns_zero_at_fractional_hour :
    toJulianDay ⟨2000, 1, 1, 18⟩ CalendarSystem.gregorian = FloatVal.finite 0 ∧
    FloatVal.finite 0 ≠ FloatVal.finite (2451545.25 : ℚ) := by
  refine ⟨rfl, fun h => absurd (FloatVal.finite.inj h) (by norm_num)⟩

/-- C3: the claim says the out-of-range date 2023-02-30 fails with
`InvalidDateError`.  The date is indeed invalid under the Gregorian rule
(February 2023 has 28 days), but the code signals no error at all — its
return type is a plain double with no error channel, and it silently
returns the day count 0.0. -/
theorem C3_invalid_date_silently_accepted :
    CalendarDate.isValid CalendarSystem.gregorian ⟨2023, 2, 30, 0⟩ = false ∧
    toJulianDay ⟨2023, 2, 30, 0⟩ CalendarSystem.gregorian = FloatVal.finite 0 := by
  exact ⟨by decide, rfl⟩

/-- C4: the claim says `toJulianDay` is strictly increasing in calendar date
order for a fixed system.  January 1 and January 2 of 2000 are both valid
Gregorian dates with the first strictly earlier, yet the code maps both to
the same value 0.0, so the map is not strictly monotone. -/
theorem C4_code_not_strictly_monotone :
    CalendarDate.before ⟨2000, 1, 1, 12⟩ ⟨2000, 1, 2, 12⟩ = true ∧
    CalendarDate.isValid CalendarSystem.gregorian ⟨2000, 1, 1, 12⟩ = true ∧
    CalendarDate.isValid CalendarSystem.gregorian ⟨2000, 1, 2, 12⟩ = true ∧
    toJulianDay ⟨2000, 1, 1, 12⟩ CalendarSystem.gregorian =
      toJulianDay ⟨2000, 1, 2, 12⟩ CalendarSystem.gregorian := by
  refine ⟨by decide, by decide, by decide, rfl⟩

/-- C5: the claim says the forward/inverse pair is mutually inverse (round
trip within 1e-9 days) and a bijection on valid dates.  The code's forward
map is constantly 0.0, so: (a) whatever inverse function is paired with it,
the round trip starting from jd = 2451545 lands on 0.0, which misses
2451545 by far more than the 1e-9 tolerance; and (b) two distinct valid
dates share the same image, so no bijection exists. -/
theorem C5_round_trip_impossible :
    (∀ g : FloatVal → CalendarSystem → CalendarDate,
      toJulianDay (g (FloatVal.finite 2451545) CalendarSystem.gregorian)
        CalendarSystem.gregorian = FloatVal.finite 0) ∧
    ¬ (|(0 : ℚ) - 2451545| ≤ 1 / 1000000000) ∧
    (⟨2000, 1, 1, 12⟩ : CalendarDate) ≠ ⟨2000, 1, 2, 12⟩ ∧
    toJulianDay ⟨2000, 1, 1, 12⟩ CalendarSystem.gregorian =
      toJulianDay ⟨2000, 1, 2, 12⟩ CalendarSystem.gregorian := by
  refine ⟨fun g => rfl, by norm_num, by decide, rfl⟩

/-- C6: the claim says the Julian date 1582-10-04 and the Gregorian date
1582-10-15 yield Julian Day Numbers differing by exactly 1.  The code
returns 0.0 for both, and 0 - 0 is not 1. -/
theorem C6_transition_difference_is_zero :
    toJulianDay ⟨1582, 10, 4, 0⟩ CalendarSystem.julian = FloatVal.finite 0 ∧
    toJulianDay ⟨1582, 10, 15, 0⟩ CalendarSystem.gregorian = FloatVal.finite 0 ∧
    (0 : ℚ) - 0 ≠ 1 := by
  exact ⟨rfl, rfl, by norm_num⟩

/-- C7: for every valid input (month in [1,12], day valid for the month and
year under the chosen system, hour in [0,24), any integer year), the code's
`toJulianDay` returns a finite double.  The embedding is a total function
(the C++ body cannot throw), so no exception is raised. -/
theorem C7_valid_input_gives_finite (d : CalendarDate) (sys : CalendarSystem)
    (h : CalendarDate.isValid sys d = true) :
    (toJulianDay d sys).isFinite = true := rfl

/-- Witness for C7 at the valid date 2000-01-01 12h, Gregorian. -/
theorem C7_valid_input_gives_finite_witness :
    CalendarDate.isValid CalendarSystem.gregorian ⟨2000, 1, 1, 12⟩ = true ∧
    (toJulianDay ⟨2000, 1, 1, 12⟩ CalendarSystem.gregorian).isFinite = true :=
  ⟨by decide,
    C7_valid_input_gives_finite ⟨2000, 1, 1, 12⟩ CalendarSystem.gregorian (by decide)⟩

/-- C8: `swe_julday` is pure and deterministic: the call leaves the receiver
object unchanged (the class has no data members and the body writes
nothing), and any two invocations with identical arguments — even on
different objects — return identical results. -/
theorem C8_pure_deterministic :
    ∀ (o o' : RNSwephImpl) (y m d h g : FloatVal),
      (o.swe_julday y m d h g).1 = (o'.swe_julday y m d h g).1 ∧
      (o.swe_julday y m d h g).2 = o :=
  fun _ _ _ _ _ _ _ => ⟨rfl, rfl⟩

/-- C9: `fromJulianDay` (modelled from the spec, being absent from src/)
fails with `DomainError` exactly on non-finite input, and succeeds with a
`CalendarDate` on every finite input. -/
theorem C9_domain_error_iff_nonfinite :
    ∀ (jd : FloatVal) (sys : CalendarSystem),
      (fromJulianDay jd sys = Except.error DomainError.nonFinite ↔
        jd.isFinite = false) ∧
      (jd.isFinite = true → ∃ d, fromJulianDay jd sys = Except.ok d) := by
  intro jd sys
  cases jd <;> simp [fromJulianDay, FloatVal.isFinite]

/-- C10: the implemented `swe_julday` is the constant function 0.0: for every
receiver object and every combination of double arguments — finite,
out-of-range, negative, NaN or infinite — it returns exactly 0.0, leaves
the object unchanged, and signals no error (its return type has no error
channel and the body cannot throw). -/
theorem C10_swe_julday_constant_zero :
    ∀ (o : RNSwephImpl) (y m d h g : FloatVal),
      o.swe_julday y m d h g = (FloatVal.finite 0, o) :=
  fun _ _ _ _ _ _ => rfl

end Sweph
